import Mathlib

/-!
Shallow embedding of the MOE scrubber engine (moe/scrubber/scrubber.py) and
of the translator facade (moe/translators/translators.py), with theorems
checking the natural-language specification against the code.
-/

namespace Moe

/-- Python truthiness of the `_contents` slot of a `ScannedFile`: the slot is
falsy when it is `None` or the empty string (`if not self._contents`). -/
def pyFalsy : Option String → Bool
  | none => true
  | some s => s.isEmpty

/-- Whether the first list starts with the second. -/
def listStartsWith : List Char → List Char → Bool
  | _, [] => true
  | [], _ :: _ => false
  | c :: cs, d :: ds => c = d && listStartsWith cs ds

/-- Left-to-right scan replacing each non-overlapping occurrence of `oldL`
by `newL`; the fuel is an upper bound on the number of characters consumed
(each step consumes at least one), kept structural so the kernel can
evaluate concrete instances. -/
def pyReplaceCore (oldL newL : List Char) : Nat → List Char → List Char
  | 0, cs => cs
  | _ + 1, [] => []
  | fuel + 1, c :: cs =>
    if listStartsWith (c :: cs) oldL then
      newL ++ pyReplaceCore oldL newL fuel (List.drop (oldL.length - 1) cs)
    else
      c :: pyReplaceCore oldL newL fuel cs

/-- Python `str.replace(old, new)`: replaces every non-overlapping occurrence
of `old`, scanning left to right.  For the empty pattern Python inserts `new`
between every character and at both ends. -/
def pyReplace (s oldText newText : String) : String :=
  if oldText.isEmpty then
    newText ++ String.join (s.toList.map (fun c => c.toString ++ newText))
  else
    (pyReplaceCore oldText.toList newText.toList s.toList.length s.toList).asString

/-- `str.startswith`. -/
def pyStartsWith (s pre : String) : Bool := listStartsWith s.toList pre.toList

/-- `os.path.basename`: the part of the path after the last slash. -/
def pyBasename (p : String) : String :=
  (p.toList.foldl (fun acc c => if c = '/' then [] else acc ++ [c]) []).asString

/-- The extension component of Python `os.path.splitext` applied to a bare
basename (no slashes): the suffix from the last dot on, except that a dot is
not an extension separator when every character before it is itself a dot
(so `.gitignore` has extension `""`). -/
def pySplitextExt (b : String) : String :=
  let cs := b.toList
  match ((List.range cs.length).filter (fun i => cs.get? i = some '.')).getLast? with
  | none => ""
  | some i =>
      if (cs.take i).any (fun c => c ≠ '.') then (cs.drop i).asString else ""

/-- `stat.S_IEXEC`: the owner-execute permission bit, `0o100`. -/
def S_IEXEC : Nat := 64

/-- `ScannedFile` (scrubber.py).  `diskContents`/`diskIsUnicode` stand for what
`_ReadContents(self.filename)` returns when the file is (re)read from disk:
the decoded text and whether UTF-8 decoding succeeded.  `origMode` is the
`st_mode` of the on-disk file consulted by `Mode()`.  `contentsField` is the
`_contents` slot (`none` = Python `None`), `inUnicode` the `_in_unicode` slot. -/
structure ScannedFile where
  filename : String
  relativeFilename : String
  outputRelativeFilename : String
  diskContents : String
  diskIsUnicode : Bool
  origMode : Nat
  contentsField : Option String
  inUnicode : Option Bool
  isModified : Bool
  isDeleted : Bool
deriving Repr, DecidableEq

/-- `ScannedFile.__init__`: fresh file, nothing loaded, no flags set. -/
def mkScannedFile (filename relativeFilename outputRelativeFilename : String)
    (diskContents : String) (diskIsUnicode : Bool) (origMode : Nat) : ScannedFile :=
  { filename, relativeFilename, outputRelativeFilename, diskContents, diskIsUnicode,
    origMode, contentsField := none, inUnicode := none,
    isModified := false, isDeleted := false }

/-- The state effect of `Contents()`: `if not self._contents:` reload from
disk (storing contents and `_in_unicode`); note that an empty stored string is
falsy in Python and triggers a reload just like `None`. -/
def ScannedFile.ContentsLoad (f : ScannedFile) : ScannedFile :=
  if pyFalsy f.contentsField then
    { f with contentsField := some f.diskContents, inUnicode := some f.diskIsUnicode }
  else f

/-- The value `Contents()` returns: `self._contents` after the lazy load. -/
def ScannedFile.ContentsVal (f : ScannedFile) : String :=
  f.ContentsLoad.contentsField.getD ""

/-- `RewriteContent(old_text, new_text)`: replace over `_contents` and set
`is_modified = True` (unconditionally).  Python would raise on an unloaded
file (`None.replace`); the embedding is used under the hypothesis that the
contents have been loaded. -/
def ScannedFile.RewriteContent (f : ScannedFile) (oldText newText : String) : ScannedFile :=
  { f with contentsField := some (pyReplace (f.contentsField.getD "") oldText newText),
           isModified := true }

/-- `WriteContents(new_text)`: no-op when the stored buffer already equals
`new_text`, otherwise store it and set `is_modified`. -/
def ScannedFile.WriteContents (f : ScannedFile) (newText : String) : ScannedFile :=
  if f.contentsField = some newText then f
  else { f with contentsField := some newText, isModified := true }

/-- `Delete()`: set `is_deleted`, empty the buffer, set `is_modified`. -/
def ScannedFile.Delete (f : ScannedFile) : ScannedFile :=
  { f with isDeleted := true, contentsField := some "", isModified := true }

/-- `IsBinaryFile()`: force the load, then `not self._in_unicode`
(Python `not None` is `True`, so an unset slot counts as binary).
Returns the value together with the post-load state. -/
def ScannedFile.IsBinaryFile (f : ScannedFile) : Bool × ScannedFile :=
  let g := f.ContentsLoad
  (!(g.inUnicode == some true), g)

/-- `Mode()`: start from `temp = 6` (rw); or in the execute bit when the
stat mode has `stat.S_IEXEC` (the owner-execute bit only); then mirror the
triad with `temp + (temp << 3) + (temp << 6)`. -/
def ScannedFile.Mode (f : ScannedFile) : Nat :=
  let temp : Nat := 6
  let temp := if f.origMode &&& S_IEXEC ≠ 0 then temp ||| 1 else temp
  temp + (temp <<< 3) + (temp <<< 6)

/-! ## Dispatcher (`ScrubberConfig` / `ScrubberContext`) -/

/-- One `extension_map` entry: a compiled regex (modelled as its
`re.search` truth function on the tested string) and the extension it maps
to. -/
structure ExtensionMapEntry where
  regexSearch : String → Bool
  toExt : String

/-- `ScrubberConfig.known_filenames`, the hard-coded set from `__init__`. -/
def knownFilenames : List String :=
  [".gitignore", "AUTHORS", "CONTRIBUTORS", "COPYING", "LICENSE", "Makefile", "README"]

/-- The slice of `ScrubberConfig` the dispatcher consults, generic over the
type `σ` of per-file scrubbers.  Regexes are modelled as their `re.search`
truth functions; `rearrangingRenamer` is the optional `renamer.FileRenamer`
built from `rearranging_config`. -/
structure ScrubberConfig (σ : Type) where
  ignoreFilesRe : String → Bool
  doNotScrubFilesRe : String → Bool
  extensionMap : List ExtensionMapEntry
  extensionToScrubberMap : List (String × List σ)
  defaultScrubbers : List σ
  rearrangingRenamer : Option (String → String)

/-- `ScrubberContext._GetExtension`: first matching `extension_map` entry
(searched against the full argument, the relative filename); else the
`os.path.splitext` extension of the basename; else, when that is empty and
the *full* argument starts with a dot, the full argument itself; else the
empty string. -/
def GetExtension (extensionMap : List ExtensionMapEntry) (filename : String) : String :=
  let basename := pyBasename filename
  match extensionMap.find? (fun e => e.regexSearch filename) with
  | some e => e.toExt
  | none =>
      let ext := pySplitextExt basename
      if ext = "" ∧ pyStartsWith filename "." then filename else ext

/-- `ScrubberContext.ScrubbersForFile`: look the resolved extension up in
`extension_to_scrubber_map`; on a hit return that scrubber list.  On a miss,
record the extension in `_unscrubbed_file_extensions` unless the file's bare
name is a known filename, and return `default_scrubbers` either way.  The
second component is the extension recorded (if any). -/
def ScrubbersForFile {σ : Type} (cfg : ScrubberConfig σ) (f : ScannedFile) :
    List σ × Option String :=
  let ext := GetExtension cfg.extensionMap f.relativeFilename
  match cfg.extensionToScrubberMap.find? (fun p => p.1 == ext) with
  | some p => (p.2, none)
  | none =>
      if pyBasename f.filename ∈ knownFilenames then (cfg.defaultScrubbers, none)
      else (cfg.defaultScrubbers, some ext)

/-- One entry of `config.input_files` together with what reading it from
disk would yield; `relativeFilename` is `RelativeFilename(full_filename)`. -/
structure InputFile where
  fullFilename : String
  relativeFilename : String
  diskContents : String
  diskIsUnicode : Bool
  origMode : Nat

/-- The `ScannedFile` that `FindFiles` appends for one input file. -/
def mkFoundFile {σ : Type} (cfg : ScrubberConfig σ) (inp : InputFile) : ScannedFile :=
  mkScannedFile inp.fullFilename inp.relativeFilename
    (match cfg.rearrangingRenamer with
     | some ren => ren inp.relativeFilename
     | none => inp.relativeFilename)
    inp.diskContents inp.diskIsUnicode inp.origMode

/-- `ScrubberContext.FindFiles`: drop every input whose relative filename
matches `ignore_files_re`, and build a `ScannedFile` (with the renamed
output-relative filename when a rearranging config is present) for the rest. -/
def FindFiles {σ : Type} (cfg : ScrubberConfig σ) (inputs : List InputFile) :
    List ScannedFile :=
  (inputs.filter (fun inp => !cfg.ignoreFilesRe inp.relativeFilename)).map
    (mkFoundFile cfg)

/-- `ScrubberContext.ShouldScrubFile`: false when the file is binary or
`do_not_scrub_files_re` matches its relative filename.  Returns the decision
together with the file state after the load forced by `IsBinaryFile()`. -/
def ShouldScrubFile {σ : Type} (cfg : ScrubberConfig σ) (f : ScannedFile) :
    Bool × ScannedFile :=
  let p := f.IsBinaryFile
  (!(p.1 || cfg.doNotScrubFilesRe p.2.relativeFilename), p.2)

/-- The `files_to_scrub` list of `Scan`: the files passing `ShouldScrubFile`
(in their post-load state).  Batch scrubbers and the per-file loop both
receive exactly this list. -/
def FilesToScrub {σ : Type} (cfg : ScrubberConfig σ) (files : List ScannedFile) :
    List ScannedFile :=
  files.filterMap (fun f =>
    let p := ShouldScrubFile cfg f
    if p.1 then some p.2 else none)

/-- The per-file loop body of `Scan`: run each scrubber in order, stopping
before the next one as soon as `is_deleted` is set. -/
def ApplyScrubbers : List (ScannedFile → ScannedFile) → ScannedFile → ScannedFile
  | [], f => f
  | s :: rest, f => if f.isDeleted then f else ApplyScrubbers rest (s f)

/-- The effect of `Scan` on the context's file list, for per-file scrubbers
(modelled as functions on `ScannedFile`): a file passing `ShouldScrubFile`
is run through its `ScrubbersForFile` list; a file failing it is left in its
post-load state, untouched by any rule. -/
def Scan (cfg : ScrubberConfig (ScannedFile → ScannedFile)) (files : List ScannedFile) :
    List ScannedFile :=
  files.map (fun f =>
    let p := ShouldScrubFile cfg f
    if p.1 then ApplyScrubbers (ScrubbersForFile cfg p.2).1 p.2 else p.2)

/-! ## Emitter (`ScrubberContext.WriteOutput`) -/

/-- `os.path.join` for the relative paths the emitter builds. -/
def pathJoin (a b : String) : String := a ++ "/" ++ b

/-- The per-file filesystem actions of `WriteOutput` steps 0–3: the path
written under `output/` (none for a deleted file), the paths written under
`originals/` and `modified/` (only for a modified file), and the two
arguments handed to the `diff` subprocess (only for a modified file). -/
structure FileEmit where
  outputWrite : Option String
  originalWrite : Option String
  modifiedWrite : Option String
  diffArgs : Option (String × String)
deriving Repr, DecidableEq

/-- `WriteOutput`, steps 0–3, for one file.  For a deleted file nothing is
written to the output tree and `modified_filename` is the literal
`/dev/null`; for a modified file the original is written to `originals/` and
`diff original_filename modified_filename` is invoked. -/
def WriteOutputFileActions (tempDir : String) (f : ScannedFile) : FileEmit :=
  let outputWrite :=
    if f.isDeleted then none
    else some (pathJoin (pathJoin tempDir "output") f.outputRelativeFilename)
  if f.isModified then
    let originalFilename := pathJoin (pathJoin tempDir "originals") f.relativeFilename
    let modifiedFilename :=
      if f.isDeleted then "/dev/null"
      else pathJoin (pathJoin tempDir "modified") f.outputRelativeFilename
    { outputWrite, originalWrite := some originalFilename,
      modifiedWrite := if f.isDeleted then none else some modifiedFilename,
      diffArgs := some (originalFilename, modifiedFilename) }
  else
    { outputWrite, originalWrite := none, modifiedWrite := none, diffArgs := none }

/-- `ScrubberContext.AddError`: drop the error when the whitelist allows it,
else append it to `_errors`. -/
def AddError (whitelistAllows : String → Bool) (errors : List String) (e : String) :
    List String :=
  if whitelistAllows e then errors else errors ++ [e]

/-- The error-surfacing of the `diff` invocation in `WriteOutput` step 3:
the code calls `p.wait()` and never inspects the return code, so no finding
is ever appended, whatever the exit status. -/
def DiffStepFindings (errors : List String) (_diffReturnCode : Int) : List String :=
  errors

/-- The error-surfacing of the tar step of `WriteOutput`: after `p.wait()`,
a nonzero `p.returncode` appends the finding `tar finished unsuccessfully`
through `AddError` (which consults the whitelist); the run continues. -/
def TarStepFindings (whitelistAllows : String → Bool) (errors : List String)
    (tarReturnCode : Int) : List String :=
  if tarReturnCode ≠ 0 then AddError whitelistAllows errors "tar finished unsuccessfully"
  else errors

/-! ## Command line (`main`) -/

/-- Which configuration source `main` ends up using. -/
inductive ConfigSource
  | fromFile
  | fromData
  | emptyConfig
deriving Repr, DecidableEq

/-- Outcome of `main`'s configuration-flag handling. -/
inductive MainFlagOutcome
  | badUsage (exitcode : Nat)
  | proceeds (src : ConfigSource)
deriving Repr, DecidableEq

/-- `main`'s handling of `--config_file` / `--config_data` (both default to
the empty string, which is falsy): when both are nonempty, `BadCommand`
exits with status 3; when only `--config_file` is given the config is parsed
from the file; when only `--config_data` is given it is parsed from the
flag; when neither is given `json_obj = {}` and the run proceeds with an
empty configuration. -/
def MainConfigFlagCheck (configFile configData : String) : MainFlagOutcome :=
  if ¬configData.isEmpty ∧ ¬configFile.isEmpty then .badUsage 3
  else if ¬configFile.isEmpty then .proceeds .fromFile
  else if ¬configData.isEmpty then .proceeds .fromData
  else .proceeds .emptyConfig

/-! ## Translators (`moe/translators/translators.py`) -/

/-- `codebase_utils.Codebase` as the translator facade observes it: a path
and a project space. -/
structure Codebase where
  path : String
  projectSpace : String
deriving Repr, DecidableEq

/-- A `Translator`: its two project-space names and its `Translate` method
(which may raise `base.Error`, modelled as `Except`). -/
structure CodebaseTranslator where
  fromProjectSpace : String
  toProjectSpace : String
  translate : Codebase → Except String Codebase

/-- `TranslateToProjectSpace`: return the codebase itself when it is already
in `to_project_space`; else invoke the first translator whose endpoint names
match; else raise `base.Error`. -/
def TranslateToProjectSpace (codebase : Codebase) (toPS : String)
    (translators : List CodebaseTranslator) : Except String Codebase :=
  if codebase.projectSpace = toPS then .ok codebase
  else
    match translators.find? (fun t =>
        t.fromProjectSpace == codebase.projectSpace && t.toProjectSpace == toPS) with
    | some t => t.translate codebase
    | none =>
        .error ("Could find no translator from " ++ codebase.projectSpace ++
          " to " ++ toPS)

/-! ## Theorems about the claims -/

/-- A file whose contents (`"abc"`) have been loaded and that is not yet
modified. -/
def c1File : ScannedFile :=
  { mkScannedFile "/cb/a.txt" "a.txt" "a.txt" "abc" true 420 with
      contentsField := some "abc", inUnicode := some true }

/-- C1, counterexample: on a loaded, unmodified file with contents `"abc"`,
`RewriteContent "x" "y"` leaves the text unchanged (no occurrence of `"x"`),
yet `is_modified` becomes `true` instead of keeping its previous value
`false`. -/
theorem c1_rewrite_counterexample :
    pyReplace "abc" "x" "y" = "abc" ∧
    c1File.contentsField = some "abc" ∧
    c1File.isModified = false ∧
    (c1File.RewriteContent "x" "y").contentsField = some "abc" ∧
    (c1File.RewriteContent "x" "y").isModified = true := by decide

/-- C1 (amended): on a loaded file, `RewriteContent(old, new)` replaces every
occurrence of `old` in the contents with `new` (Python `str.replace`
semantics), and sets `is_modified` unconditionally — even when the
replacement does not change the text; all other fields keep their values. -/
theorem rewriteContent_spec (f : ScannedFile) (s : String)
    (h : f.contentsField = some s) (oldText newText : String) :
    (f.RewriteContent oldText newText).contentsField =
        some (pyReplace s oldText newText) ∧
    (f.RewriteContent oldText newText).isModified = true ∧
    (f.RewriteContent oldText newText).isDeleted = f.isDeleted ∧
    (f.RewriteContent oldText newText).relativeFilename = f.relativeFilename := by
  simp [ScannedFile.RewriteContent, h]

/-- Witness for `rewriteContent_spec` at a concrete loaded file. -/
theorem rewriteContent_spec_witness :
    (c1File.RewriteContent "b" "Z").contentsField =
        some (pyReplace "abc" "b" "Z") ∧
    (c1File.RewriteContent "b" "Z").isModified = true ∧
    (c1File.RewriteContent "b" "Z").isDeleted = c1File.isDeleted ∧
    (c1File.RewriteContent "b" "Z").relativeFilename = c1File.relativeFilename :=
  rewriteContent_spec c1File "abc" rfl "b" "Z"

/-- A fresh scanned file whose on-disk contents are `"hello"`. -/
def c2File : ScannedFile := mkScannedFile "/cb/b.txt" "b.txt" "b.txt" "hello" true 420

/-- C2, counterexample: after `Delete()`, `Contents()` does not return the
empty text — the empty stored buffer is falsy in Python, so `Contents()`
re-reads the original file and returns `"hello"`. -/
theorem c2_delete_counterexample :
    (c2File.Delete).isDeleted = true ∧
    (c2File.Delete).isModified = true ∧
    (c2File.Delete).ContentsVal = "hello" ∧
    ("hello" : String) ≠ "" := by decide

/-- C2 (amended): `Delete()` sets `is_deleted`, sets `is_modified`, and sets
the stored content buffer to the empty text; but because `Contents()` treats
an empty buffer as not-yet-loaded, a later `Contents()` call re-reads the
original file and returns the on-disk contents (the empty text only when the
original file itself is empty). -/
theorem delete_spec (f : ScannedFile) :
    (f.Delete).isDeleted = true ∧
    (f.Delete).isModified = true ∧
    (f.Delete).contentsField = some "" ∧
    (f.Delete).ContentsVal = f.diskContents :=
  ⟨rfl, rfl, rfl, rfl⟩

/-- A file whose original mode is `0o001`: executable by others only. -/
def c6File : ScannedFile := mkScannedFile "/cb/c.sh" "c.sh" "c.sh" "x" true 1

/-- C6, counterexample: the original mode `0o001` has an execute bit (the
others-execute bit, mask `0o111 = 73`), yet the computed mode has no execute
bit at all — `Mode()` consults only the owner bit `stat.S_IEXEC`. -/
theorem c6_mode_counterexample :
    c6File.origMode &&& 73 ≠ 0 ∧ c6File.Mode &&& 73 = 0 := by decide

/-- C6 (amended): the computed mode starts from read+write (`6`); it gains
the execute bit exactly when the original mode had the *owner* execute bit
`stat.S_IEXEC` (group/other execute bits are ignored); and the resulting
permission triad is mirrored identically to user, group, and world. -/
theorem mode_spec (f : ScannedFile) :
    (f.Mode % 8 = if f.origMode &&& S_IEXEC ≠ 0 then 7 else 6) ∧
    (f.Mode / 8) % 8 = f.Mode % 8 ∧
    (f.Mode / 64) % 8 = f.Mode % 8 := by
  unfold ScannedFile.Mode
  by_cases h : f.origMode &&& S_IEXEC ≠ 0
  · simp only [if_pos h]; decide
  · simp only [if_neg h]; decide

/-- A dispatcher configuration with an empty per-file rule table, an empty
extension map, and a one-element default rule list, over `Nat` rule
identifiers. -/
def c3Cfg : ScrubberConfig Nat :=
  { ignoreFilesRe := fun _ => false
    doNotScrubFilesRe := fun _ => false
    extensionMap := []
    extensionToScrubberMap := []
    defaultScrubbers := [0]
    rearrangingRenamer := none }

/-- A file whose bare name `README` is in the known-filename set. -/
def c3File : ScannedFile := mkScannedFile "/cb/README" "README" "README" "r" true 420

/-- C3, counterexample: `README` resolves to the empty extension, which
misses the (empty) rule table, and its bare name is in the known-filename
set — yet `ScrubbersForFile` returns the (non-empty) default rule list for
it rather than skipping it; only the unknown-extension recording is
suppressed. -/
theorem c3_known_filename_counterexample :
    pyBasename c3File.filename ∈ knownFilenames ∧
    (ScrubbersForFile c3Cfg c3File).1 = [0] ∧
    (ScrubbersForFile c3Cfg c3File).1 ≠ [] ∧
    (ScrubbersForFile c3Cfg c3File).2 = none := by decide

/-- C3 (amended): when the resolved extension has no entry in the per-file
rule table, the default rule list is applied to the file whether or not its
bare name is a known filename — known filenames are not skipped; the only
difference is reporting: the extension is recorded in the unknown-extension
set exactly when the bare name is not in the known-filename set. -/
theorem scrubbersForFile_miss_spec {σ : Type} (cfg : ScrubberConfig σ)
    (f : ScannedFile)
    (h : cfg.extensionToScrubberMap.find?
        (fun p => p.1 == GetExtension cfg.extensionMap f.relativeFilename) = none) :
    (ScrubbersForFile cfg f).1 = cfg.defaultScrubbers ∧
    (ScrubbersForFile cfg f).2 =
      (if pyBasename f.filename ∈ knownFilenames then none
       else some (GetExtension cfg.extensionMap f.relativeFilename)) := by
  simp only [ScrubbersForFile, h]
  by_cases hk : pyBasename f.filename ∈ knownFilenames
  · simp [hk]
  · simp [hk]

/-- Witness for `scrubbersForFile_miss_spec` at a concrete configuration. -/
theorem scrubbersForFile_miss_spec_witness :
    (ScrubbersForFile c3Cfg c3File).1 = c3Cfg.defaultScrubbers ∧
    (ScrubbersForFile c3Cfg c3File).2 =
      (if pyBasename c3File.filename ∈ knownFilenames then none
       else some (GetExtension c3Cfg.extensionMap c3File.relativeFilename)) :=
  scrubbersForFile_miss_spec c3Cfg c3File rfl

/-- C4, counterexample: the dotfile `.gitignore` sitting in a subdirectory.
Its bare name starts with a dot and it has no real extension, so the claim
says it resolves to `.gitignore`; but the code tests (and returns) the full
relative path, so it resolves to the empty string. -/
theorem c4_dotfile_counterexample :
    pyBasename "subdir/.gitignore" = ".gitignore" ∧
    pySplitextExt ".gitignore" = "" ∧
    pyStartsWith ".gitignore" "." = true ∧
    GetExtension [] "subdir/.gitignore" = "" ∧
    ("" : String) ≠ ".gitignore" := by decide

/-- C4 (amended): extension resolution order is (1) the extension of the
first matching `(regex, extension)` override; else (2) the real
`os.path.splitext` extension of the basename; else (3) when there is no
extension and the *full relative path* starts with a dot — which only a
dotfile at the codebase root satisfies — the full relative path (equal to
the basename there); else (4) the empty string. -/
theorem getExtension_spec (em : List ExtensionMapEntry) (filename : String) :
    (∀ e, em.find? (fun en => en.regexSearch filename) = some e →
        GetExtension em filename = e.toExt) ∧
    (em.find? (fun en => en.regexSearch filename) = none →
      (pySplitextExt (pyBasename filename) ≠ "" →
        GetExtension em filename = pySplitextExt (pyBasename filename)) ∧
      (pySplitextExt (pyBasename filename) = "" →
        pyStartsWith filename "." = true →
        GetExtension em filename = filename) ∧
      (pySplitextExt (pyBasename filename) = "" →
        pyStartsWith filename "." = false →
        GetExtension em filename = "")) := by
  constructor
  · intro e he
    simp only [GetExtension, he]
  · intro hn
    refine ⟨?_, ?_, ?_⟩
    · intro hne
      simp [GetExtension, hn, hne]
    · intro he hs
      simp [GetExtension, hn, he, hs]
    · intro he hs
      simp [GetExtension, hn, he, hs]

/-- Witness for `getExtension_spec`: a root-level dotfile resolves to its
own name. -/
theorem getExtension_spec_witness :
    GetExtension [] ".gitignore" = ".gitignore" :=
  ((getExtension_spec [] ".gitignore").2 rfl).2.1 rfl rfl

/-- Loading leaves the relative filename unchanged. -/
theorem contentsLoad_relativeFilename (f : ScannedFile) :
    f.ContentsLoad.relativeFilename = f.relativeFilename := by
  unfold ScannedFile.ContentsLoad; split <;> rfl

/-- Loading leaves `is_modified` unchanged. -/
theorem contentsLoad_isModified (f : ScannedFile) :
    f.ContentsLoad.isModified = f.isModified := by
  unfold ScannedFile.ContentsLoad; split <;> rfl

/-- Loading leaves `is_deleted` unchanged. -/
theorem contentsLoad_isDeleted (f : ScannedFile) :
    f.ContentsLoad.isDeleted = f.isDeleted := by
  unfold ScannedFile.ContentsLoad; split <;> rfl

/-- Loading twice is the same as loading once: a reload stores the very same
disk contents and unicode flag. -/
theorem contentsLoad_idem (f : ScannedFile) :
    f.ContentsLoad.ContentsLoad = f.ContentsLoad := by
  unfold ScannedFile.ContentsLoad
  by_cases h : pyFalsy f.contentsField = true
  · rw [if_pos h]
    by_cases h2 : pyFalsy (some f.diskContents) = true
    · rw [if_pos h2]
    · rw [if_neg h2]
  · rw [if_neg h, if_neg h]

/-- Loading does not change the value `Contents()` returns. -/
theorem contentsLoad_contentsVal (f : ScannedFile) :
    f.ContentsLoad.ContentsVal = f.ContentsVal := by
  unfold ScannedFile.ContentsVal
  rw [contentsLoad_idem]

/-- Loading does not change whether the file counts as binary. -/
theorem contentsLoad_isBinary (f : ScannedFile) :
    f.ContentsLoad.IsBinaryFile.1 = f.IsBinaryFile.1 := by
  unfold ScannedFile.IsBinaryFile
  rw [contentsLoad_idem]

/-- `ShouldScrubFile` decides by the file's binariness and by
`do_not_scrub_files_re` on its (load-invariant) relative filename. -/
theorem shouldScrubFile_fst {σ : Type} (cfg : ScrubberConfig σ) (f : ScannedFile) :
    (ShouldScrubFile cfg f).1
      = !(f.IsBinaryFile.1 || cfg.doNotScrubFilesRe f.relativeFilename) := by
  show (!(f.IsBinaryFile.1 || cfg.doNotScrubFilesRe f.ContentsLoad.relativeFilename)) = _
  rw [contentsLoad_relativeFilename]

/-- A configuration ignoring files named `ignored.txt`, whose single default
rule would delete any file handed to it. -/
def c5Cfg : ScrubberConfig (ScannedFile → ScannedFile) :=
  { ignoreFilesRe := fun s => s == "ignored.txt"
    doNotScrubFilesRe := fun _ => false
    extensionMap := []
    extensionToScrubberMap := []
    defaultScrubbers := [fun f => f.Delete]
    rearrangingRenamer := none }

/-- A binary file (its bytes do not decode as UTF-8). -/
def c5BinFile : ScannedFile :=
  mkScannedFile "/cb/img.png" "img.png" "img.png" "PNG" false 420

/-- C5: a file matching `ignore_files_re` never enters the file list (every
found file has a non-matching relative path, and every non-matching input
does enter); every file handed to the rules is non-binary and does not match
`do_not_scrub_files_re`; and a binary or `do_not_scrub` file stays in the
context's file list after `Scan` in its merely-loaded state — no rule runs
on it, so its contents, `is_modified`, and `is_deleted` are untouched. -/
theorem scan_skips (cfg : ScrubberConfig (ScannedFile → ScannedFile))
    (inputs : List InputFile) (files : List ScannedFile) :
    (∀ g ∈ FindFiles cfg inputs, cfg.ignoreFilesRe g.relativeFilename = false) ∧
    (∀ inp ∈ inputs, cfg.ignoreFilesRe inp.relativeFilename = false →
      mkFoundFile cfg inp ∈ FindFiles cfg inputs) ∧
    (∀ g ∈ FilesToScrub cfg files,
      g.IsBinaryFile.1 = false ∧ cfg.doNotScrubFilesRe g.relativeFilename = false) ∧
    (∀ i, ∀ h : i < files.length,
      ((files.get ⟨i, h⟩).IsBinaryFile.1 = true ∨
        cfg.doNotScrubFilesRe (files.get ⟨i, h⟩).relativeFilename = true) →
      (Scan cfg files).get? i = some (files.get ⟨i, h⟩).ContentsLoad ∧
      (files.get ⟨i, h⟩).ContentsLoad.ContentsVal = (files.get ⟨i, h⟩).ContentsVal ∧
      (files.get ⟨i, h⟩).ContentsLoad.isModified = (files.get ⟨i, h⟩).isModified ∧
      (files.get ⟨i, h⟩).ContentsLoad.isDeleted = (files.get ⟨i, h⟩).isDeleted) := by
  refine ⟨?_, ?_, ?_, ?_⟩
  · intro g hg
    unfold FindFiles at hg
    rcases List.mem_map.mp hg with ⟨inp, hinp, rfl⟩
    have hf := (List.mem_filter.mp hinp).2
    simpa [mkFoundFile, mkScannedFile] using hf
  · intro inp hinp hig
    unfold FindFiles
    exact List.mem_map_of_mem _ (List.mem_filter.mpr ⟨hinp, by simp [hig]⟩)
  · intro g hg
    unfold FilesToScrub at hg
    rcases List.mem_filterMap.mp hg with ⟨f, _, heq⟩
    simp only at heq
    by_cases hb : (ShouldScrubFile cfg f).1 = true
    · rw [if_pos hb] at heq
      obtain rfl : (ShouldScrubFile cfg f).2 = g := Option.some_injective _ heq
      have h2 : (ShouldScrubFile cfg f).2 = f.ContentsLoad := rfl
      unfold ShouldScrubFile at hb
      simp only [Bool.not_eq_eq_eq_not, Bool.not_true, Bool.or_eq_false_iff] at hb
      rw [h2]
      refine ⟨?_, ?_⟩
      · rw [contentsLoad_isBinary]
        exact hb.1
      · have : (f.IsBinaryFile).2 = f.ContentsLoad := rfl
        rw [← this]
        exact hb.2
    · rw [if_neg hb] at heq
      exact absurd heq (by simp)
  · intro i h hskip
    have hsf : (ShouldScrubFile cfg (files.get ⟨i, h⟩)).1 = false := by
      rw [shouldScrubFile_fst]
      rcases hskip with hb | hd
      · rw [hb]; rfl
      · rw [hd, Bool.or_true]; rfl
    refine ⟨?_, contentsLoad_contentsVal _, contentsLoad_isModified _,
      contentsLoad_isDeleted _⟩
    unfold Scan
    rw [List.get?_map, List.get?_eq_get h]
    show some (if (ShouldScrubFile cfg (files.get ⟨i, h⟩)).1 = true then _ else
      (ShouldScrubFile cfg (files.get ⟨i, h⟩)).2) = _
    rw [hsf]
    simp only [Bool.false_eq_true, if_false]
    rfl

/-- Witness for `scan_skips`: a concrete binary file passes through `Scan`
with contents and flags untouched, even though the default rule would have
deleted it. -/
theorem scan_skips_witness :
    (Scan c5Cfg [c5BinFile]).get? 0 = some c5BinFile.ContentsLoad ∧
    c5BinFile.ContentsLoad.ContentsVal = c5BinFile.ContentsVal ∧
    c5BinFile.ContentsLoad.isModified = c5BinFile.isModified ∧
    c5BinFile.ContentsLoad.isDeleted = c5BinFile.isDeleted :=
  (scan_skips c5Cfg [] [c5BinFile]).2.2.2 0 (by decide) (Or.inl (by decide))

/-- A scanned file that has been deleted (hence also modified). -/
def c7File : ScannedFile :=
  (mkScannedFile "/cb/a.java" "a.java" "a.java" "x" true 420).Delete

/-- C7, counterexample: for a deleted file the emitter writes nothing under
`output/`, but the diff is invoked with the originals-tree copy on the left
and `/dev/null` only on the right — not with `/dev/null` on both sides. -/
theorem c7_deleted_diff_counterexample :
    c7File.isDeleted = true ∧
    (WriteOutputFileActions "tmp" c7File).outputWrite = none ∧
    (WriteOutputFileActions "tmp" c7File).diffArgs =
      some ("tmp/originals/a.java", "/dev/null") ∧
    ("tmp/originals/a.java" : String) ≠ "/dev/null" := by decide

/-- C7 (amended): for a deleted file the emitter writes nothing under the
`output/` tree (and nothing under `modified/`), and — when the file is
modified, as `Delete()` guarantees — the diff subprocess is invoked with the
`originals/` copy of the file on the left side and `/dev/null` on the right
side only. -/
theorem writeOutput_deleted_spec (tempDir : String) (f : ScannedFile)
    (hd : f.isDeleted = true) :
    (WriteOutputFileActions tempDir f).outputWrite = none ∧
    (WriteOutputFileActions tempDir f).modifiedWrite = none ∧
    (f.isModified = true →
      (WriteOutputFileActions tempDir f).diffArgs =
        some (pathJoin (pathJoin tempDir "originals") f.relativeFilename,
          "/dev/null")) ∧
    (f.isModified = false → (WriteOutputFileActions tempDir f).diffArgs = none) := by
  unfold WriteOutputFileActions
  by_cases hm : f.isModified = true <;> simp [hd, hm]

/-- Witness for `writeOutput_deleted_spec` at a concrete deleted file. -/
theorem writeOutput_deleted_spec_witness :
    (WriteOutputFileActions "tmp" c7File).outputWrite = none ∧
    (WriteOutputFileActions "tmp" c7File).modifiedWrite = none ∧
    (c7File.isModified = true →
      (WriteOutputFileActions "tmp" c7File).diffArgs =
        some (pathJoin (pathJoin "tmp" "originals") c7File.relativeFilename,
          "/dev/null")) ∧
    (c7File.isModified = false → (WriteOutputFileActions "tmp" c7File).diffArgs = none) :=
  writeOutput_deleted_spec "tmp" c7File rfl

/-- C8, counterexample: a `diff` subprocess exiting with status 2 surfaces
nothing — the code never inspects the diff return code, so no finding is
appended. -/
theorem c8_diff_exit_counterexample :
    DiffStepFindings [] 2 = [] ∧ (2 : Int) ≠ 0 := by
  exact ⟨rfl, by decide⟩

/-- C8 (amended): a nonzero tar exit status is surfaced as the finding
`tar finished unsuccessfully` appended to the context (unless whitelisted)
and the run continues; the diff exit status, however, is ignored entirely —
it produces neither a finding nor a crash. -/
theorem tar_error_spec (allows : String → Bool) (errors : List String) (rc : Int)
    (h : rc ≠ 0) (hw : allows "tar finished unsuccessfully" = false) :
    TarStepFindings allows errors rc = errors ++ ["tar finished unsuccessfully"] ∧
    (∀ errors2 rc2, DiffStepFindings errors2 rc2 = errors2) := by
  refine ⟨?_, fun _ _ => rfl⟩
  unfold TarStepFindings AddError
  rw [if_pos h, if_neg (by rw [hw]; exact Bool.false_ne_true)]

/-- Witness for `tar_error_spec` with an empty whitelist and exit status 1. -/
theorem tar_error_spec_witness :
    TarStepFindings (fun _ => false) [] 1 = [] ++ ["tar finished unsuccessfully"] ∧
    (∀ errors2 rc2, DiffStepFindings errors2 rc2 = errors2) :=
  tar_error_spec (fun _ => false) [] 1 (by decide) rfl

/-- C9, counterexample: an invocation giving neither `--config_file` nor
`--config_data` does not exit with code 3 — it proceeds with an empty
configuration. -/
theorem c9_neither_flag_counterexample :
    MainConfigFlagCheck "" "" = .proceeds .emptyConfig ∧
    MainConfigFlagCheck "" "" ≠ .badUsage 3 := by decide

/-- C9 (amended): at most one of `--config_file` / `--config_data` may be
given: an invocation giving both exits with code 3 without scrubbing; one
giving exactly one proceeds with that source; one giving neither also
proceeds, using an empty configuration. -/
theorem mainConfigFlagCheck_spec (cf cd : String) :
    (cf ≠ "" → cd ≠ "" → MainConfigFlagCheck cf cd = .badUsage 3) ∧
    (cf ≠ "" → cd = "" → MainConfigFlagCheck cf cd = .proceeds .fromFile) ∧
    (cf = "" → cd ≠ "" → MainConfigFlagCheck cf cd = .proceeds .fromData) ∧
    (cf = "" → cd = "" → MainConfigFlagCheck cf cd = .proceeds .emptyConfig) := by
  refine ⟨?_, ?_, ?_, ?_⟩ <;> intro h1 h2 <;>
    simp [MainConfigFlagCheck, String.isEmpty_iff, h1, h2]

/-- Witness for `mainConfigFlagCheck_spec`: only `--config_file` given. -/
theorem mainConfigFlagCheck_spec_witness :
    MainConfigFlagCheck "cfg.json" "" = .proceeds .fromFile :=
  (mainConfigFlagCheck_spec "cfg.json" "").2.1 (by decide) rfl

/-- A translator whose endpoints match but whose `Translate` would produce a
different codebase — available, yet never invoked. -/
def c10Translator : CodebaseTranslator :=
  { fromProjectSpace := "public"
    toProjectSpace := "public"
    translate := fun _ => .ok { path := "elsewhere", projectSpace := "public" } }

/-- C10: when the codebase is already in `to_project_space`,
`TranslateToProjectSpace` returns the codebase itself unchanged, for every
translator list, without invoking any translator. -/
theorem translateToProjectSpace_identity (cb : Codebase) (toPS : String)
    (translators : List CodebaseTranslator) (h : cb.projectSpace = toPS) :
    TranslateToProjectSpace cb toPS translators = .ok cb := by
  unfold TranslateToProjectSpace
  rw [if_pos h]

/-- Witness for `translateToProjectSpace_identity`: even with a matching
translator available (which would move the codebase elsewhere), the codebase
comes back unchanged. -/
theorem translateToProjectSpace_identity_witness :
    TranslateToProjectSpace { path := "p", projectSpace := "public" } "public"
      [c10Translator] = .ok { path := "p", projectSpace := "public" } :=
  translateToProjectSpace_identity _ "public" [c10Translator] rfl

end Moe
